import Mathlib

/-!
Shallow embedding of the vcscout analysis-graph core: the run state threaded
through the LangGraph state machine (src/graph/state.py), the conditional
router and pivot application (src/graph/edges.py), the report writer
(src/agents/writer.py), the input-validator heuristics
(src/agents/input_validator.py), the debate-panel synthesizer parsing
(src/agents/debate_panel.py), the node execution wrapper
(src/graph/nodes.py) and the configuration defaults (src/config.py).

Python dictionaries with a fixed key set are modelled as structures whose
fields are `Option`-valued where a key can be absent or hold `None`;
a LangGraph partial state update is a structure in which every field is
`Option`-valued (`none` = key not mentioned by the update).  Machine
integers are `Int` (Python ints are unbounded).  External effects (LLM
calls, database writes, wall-clock timestamps) are passed in as explicit
arguments.
-/

/-- Configuration values from src/config.py (`Settings`), with the
environment defaults recorded in the source. -/
structure Settings where
  enable_debate_mode : Bool := true
  debate_max_rounds : Nat := 6
  pass_threshold : Int := 5
  max_pivot_attempts : Nat := 3
  pivot_threshold : Int := 5
deriving Repr, DecidableEq

/-- The source's default settings (`Settings()` field defaults). -/
def defaultSettings : Settings := {}

/-- Pivot record dict built by apply_pivot / debate_panel
(state.py `PivotRecord` shape). -/
structure PivotRecord where
  attempt_num : Nat
  original_idea : String
  pivoted_idea : String
  reason : String
  score : Int
  timestamp : String
deriving Repr, DecidableEq

/-- The `devils_advocate_feedback` dict (shape of
`DevilsAdvocateFeedback.model_dump()` and of the compatibility dict written
by debate_panel).  A field is `none` when the key is absent. -/
structure FeedbackDict where
  score : Option Int := none
  verdict : Option String := none
  reason : Option String := none
  key_risks : List String := []
  key_opportunities : List String := []
  suggested_pivot : Option String := none
  pivot_rationale : Option String := none
deriving Repr, DecidableEq

/-- InputValidationResult (state.py). -/
structure InputValidationResult where
  is_valid : Bool := true
  rejection_reason : Option String := none
  suggested_reframe : Option String := none
deriving Repr, DecidableEq

/-- MarketResearchResult (state.py); contents are never branched on by the
graph core, but the slot's presence/absence is. -/
structure MarketResearchResult where
  market_size_estimate : String
  growth_rate : String
  key_trends : List String
  target_demographics : String
  market_maturity : String
  data_sources : List String
  summary : String
deriving Repr, DecidableEq

/-- CompetitorProfile (state.py). -/
structure CompetitorProfile where
  name : String
  url : String
  description : String
  key_features : List String
  pricing_model : String
  target_audience : String
  strengths : List String
  weaknesses : List String
deriving Repr, DecidableEq

/-- CompetitorAnalysisResult (state.py). -/
structure CompetitorAnalysisResult where
  competitors : List CompetitorProfile
  market_saturation : String
  differentiation_opportunities : List String
  barriers_to_entry : List String
  summary : String
deriving Repr, DecidableEq

/-- DebateMessage (state.py). -/
structure DebateMessage where
  speaker : String
  content : String
  timestamp : String := ""
deriving Repr, DecidableEq

/-- DebateResult (state.py), after its pydantic field validators ran. -/
structure DebateResult where
  score : Int := 5
  verdict : String := "pivot"
  final_idea : String := ""
  idea_was_pivoted : Bool := false
  bull_case : String := ""
  bear_case : String := ""
  synthesis : String := ""
  key_risks : List String := []
  key_opportunities : List String := []
  recommended_next_steps : List String := []
  debate_transcript : List DebateMessage := []
deriving Repr, DecidableEq

/-- AgentState (state.py): the run state threaded through every node.
Result slots are `Option`-valued (`none` = Python `None` / not yet run). -/
structure AgentState where
  job_id : String
  session_id : String
  original_idea : String
  current_idea : String
  pivot_attempts : Nat
  pivot_history : List PivotRecord
  input_validation : Option InputValidationResult
  market_research : Option MarketResearchResult
  competitor_analysis : Option CompetitorAnalysisResult
  devils_advocate_feedback : Option FeedbackDict
  debate_result : Option DebateResult
  final_report : Option String
  report_type : Option String
  status : String
  error : Option String
  created_at : String
  updated_at : String
deriving Repr, DecidableEq

/-- create_initial_state (state.py). -/
def create_initial_state (job_id session_id idea now : String) : AgentState where
  job_id := job_id
  session_id := session_id
  original_idea := idea
  current_idea := idea
  pivot_attempts := 0
  pivot_history := []
  input_validation := none
  market_research := none
  competitor_analysis := none
  devils_advocate_feedback := none
  debate_result := none
  final_report := none
  report_type := none
  status := "started"
  error := none
  created_at := now
  updated_at := now

/-- A partial state update returned by a node: `none` means the key is not
mentioned.  Slots that can be explicitly set to Python `None` are doubly
optional (`some none` = key set to `None`). -/
structure StateUpdate where
  job_id : Option String := none
  session_id : Option String := none
  original_idea : Option String := none
  current_idea : Option String := none
  pivot_attempts : Option Nat := none
  pivot_history : Option (List PivotRecord) := none
  input_validation : Option (Option InputValidationResult) := none
  market_research : Option (Option MarketResearchResult) := none
  competitor_analysis : Option (Option CompetitorAnalysisResult) := none
  devils_advocate_feedback : Option (Option FeedbackDict) := none
  debate_result : Option (Option DebateResult) := none
  final_report : Option (Option String) := none
  report_type : Option (Option String) := none
  status : Option String := none
  error : Option (Option String) := none
  created_at : Option String := none
  updated_at : Option String := none
deriving Repr, DecidableEq

/-- merge_pivot_history (state.py): the reducer annotated on
`pivot_history`; `None` arguments become `[]` and the lists concatenate. -/
def merge_pivot_history (existing new : Option (List PivotRecord)) : List PivotRecord :=
  existing.getD [] ++ new.getD []

/-- LangGraph channel semantics: apply a partial update to the state.
Every key mentioned replaces the previous value, except `pivot_history`,
whose annotated reducer `merge_pivot_history` concatenates. -/
def applyUpdate (s : AgentState) (u : StateUpdate) : AgentState where
  job_id := u.job_id.getD s.job_id
  session_id := u.session_id.getD s.session_id
  original_idea := u.original_idea.getD s.original_idea
  current_idea := u.current_idea.getD s.current_idea
  pivot_attempts := u.pivot_attempts.getD s.pivot_attempts
  pivot_history := merge_pivot_history (some s.pivot_history) u.pivot_history
  input_validation := (u.input_validation.getD s.input_validation : Option InputValidationResult)
  market_research := u.market_research.getD s.market_research
  competitor_analysis := u.competitor_analysis.getD s.competitor_analysis
  devils_advocate_feedback := u.devils_advocate_feedback.getD s.devils_advocate_feedback
  debate_result := u.debate_result.getD s.debate_result
  final_report := u.final_report.getD s.final_report
  report_type := u.report_type.getD s.report_type
  status := u.status.getD s.status
  error := u.error.getD s.error
  created_at := u.created_at.getD s.created_at
  updated_at := u.updated_at.getD s.updated_at

/-- The score read in edges.py and writer.py:
`feedback = state.get("devils_advocate_feedback") or \x7b\x7d` followed by
`score = feedback.get("score", 0) if feedback else 0`.  An absent or empty
dict is falsy, so the score defaults to 0. -/
def stateScore (s : AgentState) : Int :=
  match s.devils_advocate_feedback with
  | some fb => fb.score.getD 0
  | none => 0

/-- should_pivot_or_proceed (edges.py). -/
def should_pivot_or_proceed (settings : Settings) (state : AgentState) : String :=
  if state.status = "failed" then "write_failure"
  else
    let score := stateScore state
    if score > settings.pivot_threshold then "write_success"
    else if state.pivot_attempts < settings.max_pivot_attempts then "pivot"
    else "write_failure"

/-- Python string truthiness on an optional string: `None` and `""` are
falsy. -/
def truthyStr (o : Option String) : Option String :=
  match o with
  | some s => if s = "" then none else some s
  | none => none

/-- apply_pivot (edges.py).  `now` is the wall-clock timestamp string. -/
def apply_pivot (state : AgentState) (now : String) : StateUpdate :=
  let fbSlot := state.devils_advocate_feedback
  let current_idea := state.current_idea
  let pivot_attempts := state.pivot_attempts
  let suggested_pivot : String :=
    (truthyStr (fbSlot.bind (·.suggested_pivot))).getD
      ((truthyStr (fbSlot.bind (·.pivot_rationale))).getD
        ("Refined version of: " ++ current_idea))
  let pivot_record : PivotRecord :=
    { attempt_num := pivot_attempts + 1
      original_idea := current_idea
      pivoted_idea := suggested_pivot
      reason := (truthyStr (fbSlot.bind (·.reason))).getD "Score below threshold"
      score := (fbSlot.bind (·.score)).getD 0
      timestamp := now }
  { current_idea := some suggested_pivot
    pivot_attempts := some (pivot_attempts + 1)
    pivot_history := some [pivot_record]
    status := some "pivoting"
    updated_at := some now
    market_research := some none
    competitor_analysis := some none
    devils_advocate_feedback := some none }

/-- One pivot iteration as the graph applies it: the partial update from
apply_pivot merged into the state by the LangGraph reducer. -/
def pivotStep (state : AgentState) (now : String) : AgentState :=
  applyUpdate state (apply_pivot state now)

/-- N successive pivot applications starting from `init`; `ts n` is the
timestamp of the n-th application. -/
def pivotIter (init : AgentState) (ts : Nat → String) : Nat → AgentState
  | 0 => init
  | n + 1 => pivotStep (pivotIter init ts n) (ts n)

/-- Python string characters, lowercased (str.lower; ASCII model). -/
def pyLower (s : String) : String := String.mk (s.data.map Char.toLower)

/-- str.strip(): drop leading and trailing whitespace characters. -/
def pyStripChars (l : List Char) : List Char :=
  ((l.dropWhile Char.isWhitespace).reverse.dropWhile Char.isWhitespace).reverse

/-- Does the list begin with the given pattern? -/
def beginsWith : List Char → List Char → Bool
  | _, [] => true
  | [], _ :: _ => false
  | c :: cs, d :: ds => c = d && beginsWith cs ds

/-- Python substring membership `pat in l`. -/
def containsSub : List Char → List Char → Bool
  | [], pat => pat.isEmpty
  | c :: cs, pat => beginsWith (c :: cs) pat || containsSub cs pat

/-- Python `pat in s` on strings. -/
def strContains (s pat : String) : Bool := containsSub s.data pat.data

/-- A Python scalar as it may arrive in a score/verdict field: an int,
a string, or None (the cases the validators in state.py distinguish). -/
inductive PyVal where
  | int (n : Int)
  | str (s : String)
  | none
deriving Repr, DecidableEq

/-- Digit run to Nat. -/
def digitsToNat (l : List Char) : Nat :=
  l.foldl (fun acc c => acc * 10 + (c.toNat - 48)) 0

/-- Python int(s) on a string (ASCII model): optional surrounding
whitespace, an optional sign, then one or more digits; anything else
raises ValueError, modelled as `none`. -/
def pyIntOfString (s : String) : Option Int :=
  let l := pyStripChars s.data
  match l with
  | c :: rest =>
    if c = '-' then
      if rest ≠ [] ∧ rest.all Char.isDigit then some (-(Int.ofNat (digitsToNat rest))) else Option.none
    else if c = '+' then
      if rest ≠ [] ∧ rest.all Char.isDigit then some (Int.ofNat (digitsToNat rest)) else Option.none
    else if l.all Char.isDigit then some (Int.ofNat (digitsToNat l)) else Option.none
  | [] => Option.none

/-- clamp_score (state.py): the identical `score` field validator of
DevilsAdvocateFeedback and DebateResult.  A string is parsed as an int
(ValueError gives 5), None gives 5, and the result is clamped into
[1, 10] by max(1, min(10, int(v))). -/
def clamp_score (v : PyVal) : Int :=
  match v with
  | .str s =>
    match pyIntOfString s with
    | some n => max 1 (min 10 n)
    | Option.none => 5
  | .none => 5
  | .int n => max 1 (min 10 n)

/-- Python str(v) for the scalar values above. -/
def pyStrOfVal : PyVal → String
  | .str s => s
  | .int n => toString n
  | .none => "None"

/-- normalize_verdict (state.py, DevilsAdvocateFeedback): keyword match on
str(v).lower().strip(), defaulting to "pivot". -/
def DevilsAdvocateFeedback.normalize_verdict (v : PyVal) : String :=
  match v with
  | .none => "pivot"
  | _ =>
    let vl := String.mk (pyStripChars (pyLower (pyStrOfVal v)).data)
    if strContains vl "invest" || strContains vl "approve" || strContains vl "proceed" then
      "invest"
    else if strContains vl "reject" || strContains vl "fail" || strContains vl "no" then
      "reject"
    else "pivot"

/-- normalize_verdict (state.py, DebateResult): keyword match on
str(v).lower().strip(), defaulting to "conditional_invest". -/
def DebateResult.normalize_verdict (v : PyVal) : String :=
  match v with
  | .none => "conditional_invest"
  | _ =>
    let vl := String.mk (pyStripChars (pyLower (pyStrOfVal v)).data)
    if strContains vl "strong" || (strContains vl "invest" && !(strContains vl "conditional")) then
      "invest"
    else if strContains vl "reject" || strContains vl "fail" || strContains vl "no" then
      "reject"
    else "conditional_invest"

/-- The score string interpolated into the report headers:
`feedback.get('score', 'N/A')` rendered by the f-string. -/
def scoreDisplay (fbSlot : Option FeedbackDict) : String :=
  match fbSlot with
  | some fb => match fb.score with | some n => toString n | Option.none => "N/A"
  | Option.none => "N/A"

/-- Model of _write_investment_memo (writer.py): the prompt is sent to the external
LLM whose reply is the `report` argument; the returned update carries the
headed report, report_type "investment_memo" and status "completed". -/
def write_investment_memo (state : AgentState) (report : String) : StateUpdate :=
  let full_report :=
    "# 🟢 Investment Memo\n\n**Idea:** " ++ state.current_idea ++
    "\n**Score:** " ++ scoreDisplay state.devils_advocate_feedback ++
    "/10\n**Generated:** \x7btimestamp\x7d\n\n---\n\n" ++ report ++ "\n"
  { final_report := some (some full_report)
    report_type := some (some "investment_memo")
    status := some "completed" }

/-- Model of _write_market_reality_report (writer.py): as above, with the
market-reality header, report_type "market_reality". -/
def write_market_reality_report (state : AgentState) (report : String) : StateUpdate :=
  let full_report :=
    "# 🔴 Market Reality Report\n\n**Original Idea:** " ++ state.original_idea ++
    "\n**Final Score:** " ++ scoreDisplay state.devils_advocate_feedback ++
    "/10\n**Pivots Attempted:** " ++ toString state.pivot_history.length ++
    "\n**Generated:** \x7btimestamp\x7d\n\n---\n\n" ++ report ++ "\n"
  { final_report := some (some full_report)
    report_type := some (some "market_reality")
    status := some "completed" }

/-- writer (writer.py): branches purely on
`score > settings.pivot_threshold`, with the score read exactly as in the
router (missing feedback gives 0).  `llmReport` is the body text returned
by the external LLM for whichever prompt was sent. -/
def writer (settings : Settings) (state : AgentState) (llmReport : String) : StateUpdate :=
  if stateScore state > settings.pivot_threshold then
    write_investment_memo state llmReport
  else
    write_market_reality_report state llmReport

/-- The five vowels checked by the gibberish heuristic. -/
def vowels : List Char := ['a', 'e', 'i', 'o', 'u']

/-- Model of _is_obvious_gibberish (input_validator.py): on the lowercased text with
whitespace removed, flag (1) at most two distinct characters in a string
longer than 3, (2) no vowel in a string longer than 5, (3) fewer than half
alphabetic characters in a string longer than 3. -/
def is_obvious_gibberish (text : String) : Bool :=
  let clean := (pyLower text).data.filter (fun c => !c.isWhitespace)
  if clean.dedup.length ≤ 2 && decide (clean.length > 3) then true
  else if decide (clean.length > 5) && !(clean.any (fun c => vowels.contains c)) then true
  else if decide (clean.length > 3) &&
      decide (2 * (clean.filter Char.isAlpha).length < clean.length) then true
  else false

/-- str.split() with no argument: maximal nonempty whitespace-free runs. -/
def splitWs : List Char → List (List Char)
  | [] => [[]]
  | c :: rest =>
    match splitWs rest with
    | [] => [[]]
    | h :: t => if c.isWhitespace then [] :: h :: t else (c :: h) :: t

/-- Python `text.split()`. -/
def pySplitWords (s : String) : List String :=
  ((splitWs s.data).filter (· ≠ [])).map String.mk

/-- The keyword list of _looks_like_business_idea (input_validator.py). -/
def businessKeywords : List String :=
  ["app", "platform", "service", "tool", "software", "saas",
   "marketplace", "ai", "automated", "solution", "startup",
   "business", "company", "product", "subscription", "b2b", "b2c",
   "for", "that", "which", "helps", "enables", "allows",
   "uber", "airbnb", "like", "similar", "alternative"]

/-- Model of _looks_like_business_idea (input_validator.py). -/
def looks_like_business_idea (text : String) : Bool :=
  businessKeywords.any (fun kw => strContains (pyLower text) kw)

/-- The cheap pre-checks of input_validator (input_validator.py) that run
before any reasoning-service call: `some update` means the validator
resolves without an LLM call, `none` means it escalates to the LLM. -/
def input_validator_precheck (idea0 : String) : Option StateUpdate :=
  let idea := String.mk (pyStripChars idea0.data)
  if idea = "" || decide (idea.length < 3) then
    some { input_validation := some (some
             { is_valid := false
               rejection_reason := some "Input is too short. Please describe a startup idea."
               suggested_reframe := Option.none })
           status := some "invalid_input" }
  else if is_obvious_gibberish idea then
    some { input_validation := some (some
             { is_valid := false
               rejection_reason := some "Input appears to be gibberish. Please enter a valid startup idea."
               suggested_reframe := Option.none })
           status := some "invalid_input" }
  else if decide ((pySplitWords idea).length ≥ 5) && looks_like_business_idea idea then
    some { input_validation := some (some
             { is_valid := true, rejection_reason := Option.none, suggested_reframe := Option.none })
           status := some "validated" }
  else
    Option.none

/-- The outcome of running a stage function: its returned partial update,
or the text of the exception it raised. -/
inductive StageOutcome where
  | ok (result : StateUpdate)
  | exn (message : String)
deriving Repr, DecidableEq

/-- The wrapped node produced by create_node_wrapper (nodes.py).  The
database write is an external effect whose success is the
`persistSucceeds` argument; a failing write is caught and logged inside
the wrapper, so it cannot influence the returned update.  On a stage
exception the wrapper returns a normal update with status "failed" and the
formatted error text instead of raising. -/
def wrapped_node (node_name : String) (outcome : StageOutcome)
    (persistSucceeds : Bool) (now : String) : StateUpdate :=
  match outcome with
  | .ok result => { result with updated_at := some now }
  | .exn msg =>
    { status := some "failed"
      error := some (some ("Node \x27" ++ node_name ++ "\x27 failed: " ++ msg))
      updated_at := some now }

/-- Python slice s[:200]. -/
def take200 (s : String) : String := String.mk (s.data.take 200)

/-- The state update assembled at the end of debate_panel
(debate_panel.py) from the parsed synthesizer result: always stores the
debate result and a compatibility devils_advocate_feedback dict; when the
result was pivoted with a nonempty final idea it also rewrites
current_idea, increments pivot_attempts and contributes one pivot record. -/
def debate_panel_updates (state : AgentState) (result : DebateResult) (now : String) :
    StateUpdate :=
  let idea := state.current_idea
  let fb : FeedbackDict :=
    { score := some result.score
      verdict := some result.verdict
      reason := some result.synthesis
      key_risks := result.key_risks
      key_opportunities := result.key_opportunities
      suggested_pivot := if result.idea_was_pivoted then some result.final_idea else Option.none
      pivot_rationale := if result.idea_was_pivoted then some result.synthesis else Option.none }
  let base : StateUpdate :=
    { debate_result := some (some result)
      status := some "debating"
      devils_advocate_feedback := some (some fb) }
  if result.idea_was_pivoted ∧ result.final_idea ≠ "" then
    { base with
      current_idea := some result.final_idea
      pivot_attempts := some (state.pivot_attempts + 1)
      pivot_history := some
        [{ attempt_num := state.pivot_attempts + 1
           original_idea := idea
           pivoted_idea := result.final_idea
           reason := "Debate consensus: " ++ take200 result.synthesis ++ "..."
           score := result.score
           timestamp := now }] }
  else base

/-- The backquote character of a markdown code fence. -/
def tickChar : Char := Char.ofNat 96

/-- Opening curly brace character. -/
def lbrace : Char := Char.ofNat 123

/-- Closing curly brace character. -/
def rbrace : Char := Char.ofNat 125

/-- Newline character. -/
def nlChar : Char := Char.ofNat 10

/-- response.split("\n"). -/
def splitNl : List Char → List (List Char)
  | [] => [[]]
  | c :: rest =>
    match splitNl rest with
    | [] => [[]]
    | h :: t => if c = nlChar then [] :: h :: t else (c :: h) :: t

/-- Python "\n".join(lines). -/
def joinNl : List (List Char) → List Char
  | [] => []
  | [x] => x
  | x :: y :: t => x ++ nlChar :: joinNl (y :: t)

/-- response.startswith("```"). -/
def beginsWith3Ticks (l : List Char) : Bool :=
  beginsWith l [tickChar, tickChar, tickChar]

/-- response.endswith("```"). -/
def endsWith3Ticks (l : List Char) : Bool :=
  beginsWith l.reverse [tickChar, tickChar, tickChar]

/-- The successive reassignments of `response` inside
_parse_synthesizer_response (debate_panel.py): strip, drop a leading
fenced line-slice, drop a trailing fence. -/
def mutateResponse (r0 : List Char) : List Char :=
  let r1 := pyStripChars r0
  let r2 := if beginsWith3Ticks r1 then joinNl (((splitNl r1).drop 1).dropLast) else r1
  if endsWith3Ticks r2 then pyStripChars (r2.take (r2.length - 3)) else r2

/-- Index of the first occurrence of a character. -/
def idxOfFirst (c : Char) : List Char → Option Nat
  | [] => Option.none
  | d :: rest => if d = c then some 0 else (idxOfFirst c rest).map (· + 1)

/-- Index of the last occurrence of a character. -/
def idxOfLast (c : Char) (l : List Char) : Option Nat :=
  (idxOfFirst c l.reverse).map (fun i => l.length - 1 - i)

/-- re.search of a greedy brace block: the match runs from the first
opening brace to the last closing brace, provided the latter comes after
the former. -/
def extractBraces (r : List Char) : Option (List Char) :=
  match idxOfFirst lbrace r, idxOfLast rbrace r with
  | some i, some j => if i < j then some ((r.drop i).take (j - i + 1)) else Option.none
  | _, _ => Option.none

/-- JSON values as json.loads yields them (floats are not modelled; a
fractional or exponent part is a parse failure in this model). -/
inductive Json where
  | null
  | bool (b : Bool)
  | int (n : Int)
  | str (s : String)
  | arr (elems : List Json)
  | obj (fields : List (String × Json))

/-- JSON insignificant whitespace. -/
def isJsonWs (c : Char) : Bool :=
  c = ' ' || c = Char.ofNat 9 || c = nlChar || c = Char.ofNat 13

/-- Skip insignificant whitespace. -/
def skipWs (l : List Char) : List Char := l.dropWhile isJsonWs

/-- Body of a JSON string after the opening quote; returns the decoded
characters and the remainder after the closing quote.  Unicode escapes are
not modelled (parse failure). -/
def parseJsonStringBody : Nat → List Char → Option (List Char × List Char)
  | 0, _ => Option.none
  | _, [] => Option.none
  | fuel + 1, c :: rest =>
    if c = '"' then some ([], rest)
    else if c = '\\' then
      match rest with
      | e :: rest2 =>
        let esc : Option Char :=
          if e = '"' then some '"'
          else if e = '\\' then some '\\'
          else if e = '/' then some '/'
          else if e = 'n' then some nlChar
          else if e = 't' then some (Char.ofNat 9)
          else if e = 'r' then some (Char.ofNat 13)
          else if e = 'b' then some (Char.ofNat 8)
          else if e = 'f' then some (Char.ofNat 12)
          else Option.none
        match esc with
        | some ch => (parseJsonStringBody fuel rest2).map (fun p => (ch :: p.1, p.2))
        | Option.none => Option.none
      | [] => Option.none
    else (parseJsonStringBody fuel rest).map (fun p => (c :: p.1, p.2))

/-- An integer JSON number at the head of the input. -/
def parseJsonInt (l : List Char) : Option (Json × List Char) :=
  let (neg, l2) := match l with
    | c :: rest => if c = '-' then (true, rest) else (false, l)
    | [] => (false, l)
  let digits := l2.takeWhile Char.isDigit
  let rest := l2.dropWhile Char.isDigit
  if digits = [] then Option.none
  else
    match rest with
    | d :: _ =>
      if d = '.' || d = 'e' || d = 'E' then Option.none
      else some (.int (if neg then -(Int.ofNat (digitsToNat digits)) else Int.ofNat (digitsToNat digits)), rest)
    | [] => some (.int (if neg then -(Int.ofNat (digitsToNat digits)) else Int.ofNat (digitsToNat digits)), rest)

mutual

/-- A JSON value at the head of the input (fuel-bounded recursive-descent
model of json.loads). -/
def parseJsonValue : Nat → List Char → Option (Json × List Char)
  | 0, _ => Option.none
  | fuel + 1, l0 =>
    let l := skipWs l0
    match l with
    | [] => Option.none
    | c :: rest =>
      if c = lbrace then
        let rest2 := skipWs rest
        match rest2 with
        | d :: rest3 =>
          if d = rbrace then some (.obj [], rest3)
          else (parseJsonMembers fuel rest []).map (fun p => (.obj p.1, p.2))
        | [] => Option.none
      else if c = '[' then
        let rest2 := skipWs rest
        match rest2 with
        | d :: rest3 =>
          if d = ']' then some (.arr [], rest3)
          else (parseJsonElems fuel rest []).map (fun p => (.arr p.1, p.2))
        | [] => Option.none
      else if c = '"' then
        (parseJsonStringBody (rest.length + 1) rest).map (fun p => (.str (String.mk p.1), p.2))
      else if beginsWith l ['t', 'r', 'u', 'e'] then some (.bool true, l.drop 4)
      else if beginsWith l ['f', 'a', 'l', 's', 'e'] then some (.bool false, l.drop 5)
      else if beginsWith l ['n', 'u', 'l', 'l'] then some (.null, l.drop 4)
      else parseJsonInt l

/-- Object members from just after a brace or comma. -/
def parseJsonMembers : Nat → List Char → List (String × Json) →
    Option (List (String × Json) × List Char)
  | 0, _, _ => Option.none
  | fuel + 1, l0, acc =>
    let l := skipWs l0
    match l with
    | c :: rest =>
      if c = '"' then
        match parseJsonStringBody (rest.length + 1) rest with
        | some (key, rest2) =>
          match skipWs rest2 with
          | d :: rest3 =>
            if d = ':' then
              match parseJsonValue fuel rest3 with
              | some (v, rest4) =>
                match skipWs rest4 with
                | e :: rest5 =>
                  if e = ',' then parseJsonMembers fuel rest5 (acc ++ [(String.mk key, v)])
                  else if e = rbrace then some (acc ++ [(String.mk key, v)], rest5)
                  else Option.none
                | [] => Option.none
              | Option.none => Option.none
            else Option.none
          | [] => Option.none
        | Option.none => Option.none
      else Option.none
    | [] => Option.none

/-- Array elements from just after a bracket or comma. -/
def parseJsonElems : Nat → List Char → List Json → Option (List Json × List Char)
  | 0, _, _ => Option.none
  | fuel + 1, l, acc =>
    match parseJsonValue fuel l with
    | some (v, rest) =>
      match skipWs rest with
      | e :: rest2 =>
        if e = ',' then parseJsonElems fuel rest2 (acc ++ [v])
        else if e = ']' then some (acc ++ [v], rest2)
        else Option.none
      | [] => Option.none
    | Option.none => Option.none

end

/-- json.loads on the extracted text: one value, nothing but whitespace
after it. -/
def json_loads (l : List Char) : Option Json :=
  match parseJsonValue (l.length + 2) l with
  | some (v, rest) => if (skipWs rest).isEmpty then some v else Option.none
  | Option.none => Option.none

/-- dict.get on a parsed object (last binding wins, as json.loads keeps
the last duplicate key). -/
def jGet (fields : List (String × Json)) (key : String) : Option Json :=
  (fields.reverse.find? (fun p => p.1 = key)).map (·.2)

/-- A scalar JSON value as the Python value handed to the score/verdict
validators; arrays and objects are not clampable (int() raises) and are
modelled as construction failure. -/
def pyOfJsonScalar : Json → Option PyVal
  | .int n => some (.int n)
  | .str s => some (.str s)
  | .null => some .none
  | .bool b => some (.int (if b then 1 else 0))
  | _ => Option.none

/-- data.get(key, default) for a str-typed pydantic field: a missing key
takes the default, a non-string value fails validation. -/
def jsonStrField (fields : List (String × Json)) (key dflt : String) : Option String :=
  match jGet fields key with
  | Option.none => some dflt
  | some (.str s) => some s
  | some _ => Option.none

/-- data.get(key, default) for a bool-typed pydantic field. -/
def jsonBoolField (fields : List (String × Json)) (key : String) (dflt : Bool) : Option Bool :=
  match jGet fields key with
  | Option.none => some dflt
  | some (.bool b) => some b
  | some _ => Option.none

/-- data.get(key, []) for a list-of-str pydantic field. -/
def jsonStrListField (fields : List (String × Json)) (key : String) : Option (List String) :=
  match jGet fields key with
  | Option.none => some []
  | some (.arr es) => es.mapM (fun j => match j with | .str s => some s | _ => Option.none)
  | some _ => Option.none

/-- DebateResult(...) construction from the parsed JSON object, running
the pydantic field validators; `none` models a ValidationError, which the
caller's except clause turns into the text fallback. -/
def tryBuildDebateResult (fields : List (String × Json)) (original_idea : String)
    (transcript : List DebateMessage) : Option DebateResult := do
  let scoreVal ← pyOfJsonScalar ((jGet fields "score").getD (.int 5))
  let verdictVal ← pyOfJsonScalar ((jGet fields "verdict").getD (.str "conditional_invest"))
  let finalIdea ← jsonStrField fields "final_idea" original_idea
  let pivoted ← jsonBoolField fields "idea_was_pivoted" false
  let bull ← jsonStrField fields "bull_case" ""
  let bear ← jsonStrField fields "bear_case" ""
  let synth ← jsonStrField fields "synthesis" ""
  let risks ← jsonStrListField fields "key_risks"
  let opps ← jsonStrListField fields "key_opportunities"
  let steps ← jsonStrListField fields "recommended_next_steps"
  some { score := clamp_score scoreVal
         verdict := DebateResult.normalize_verdict verdictVal
         final_idea := finalIdea
         idea_was_pivoted := pivoted
         bull_case := bull
         bear_case := bear
         synthesis := synth
         key_risks := risks
         key_opportunities := opps
         recommended_next_steps := steps
         debate_transcript := transcript }

/-- Separator run of the fallback score regex: colons and whitespace. -/
def isScoreSep (c : Char) : Bool := c = ':' || c.isWhitespace

/-- re.search of the case-insensitive pattern "score[:\s]*(\d+)" over the
already-lowercased text: the first occurrence of "score" followed by a
colon/whitespace run and then at least one digit captures the digit run. -/
def findScoreNum : List Char → Option Int
  | [] => Option.none
  | c :: rest =>
    if beginsWith (c :: rest) ['s', 'c', 'o', 'r', 'e'] then
      let digits := (((c :: rest).drop 5).dropWhile isScoreSep).takeWhile Char.isDigit
      if digits = [] then findScoreNum rest
      else some (Int.ofNat (digitsToNat digits))
    else findScoreNum rest

/-- The except-branch of _parse_synthesizer_response: regex-scan the
(mutated) response text for a score and keyword verdict, then build the
DebateResult through its validators. -/
def fallbackDebateResult (r : List Char) (original_idea : String)
    (transcript : List DebateMessage) : DebateResult :=
  let low := r.map Char.toLower
  let score := (findScoreNum low).getD 5
  let verdict :=
    if containsSub low "reject".data then "reject"
    else if containsSub low "invest".data && !(containsSub low "conditional".data) then "invest"
    else "conditional_invest"
  { score := clamp_score (.int score)
    verdict := DebateResult.normalize_verdict (.str verdict)
    final_idea := original_idea
    idea_was_pivoted := false
    bull_case := "(Parsing failed - see transcript)"
    bear_case := "(Parsing failed - see transcript)"
    synthesis := String.mk (r.take 500)
    key_risks := []
    key_opportunities := []
    recommended_next_steps := []
    debate_transcript := transcript }

/-- The try-branch: brace extraction, json.loads, DebateResult
construction; `none` is any of JSONDecodeError, the explicit ValueError
when no braces are found, or a ValidationError from construction. -/
def jsonAttempt (r : List Char) (original_idea : String)
    (transcript : List DebateMessage) : Option DebateResult :=
  match extractBraces r with
  | some jtxt =>
    match json_loads jtxt with
    | some (.obj fields) => tryBuildDebateResult fields original_idea transcript
    | _ => Option.none
  | Option.none => Option.none

/-- Model of _parse_synthesizer_response (debate_panel.py). -/
def parse_synthesizer_response (response original_idea : String)
    (transcript : List DebateMessage) : DebateResult :=
  let r := mutateResponse response.data
  match jsonAttempt r original_idea transcript with
  | some res => res
  | Option.none => fallbackDebateResult r original_idea transcript

/-- A synthesizer payload wrapped in a markdown code fence, as the
LLM often returns it. -/
def wrapFences (payload : String) : String :=
  "```json\n" ++ payload ++ "\n```"

/-!  Helper lemmas. -/

theorem splitNl_ne_nil (l : List Char) : splitNl l ≠ [] := by
  cases l with
  | nil => simp [splitNl]
  | cons c rest =>
    simp only [splitNl]
    cases h : splitNl rest with
    | nil => simp
    | cons a t => by_cases hc : c = nlChar <;> simp [hc]

theorem splitNl_append_nl (a b : List Char) :
    splitNl (a ++ nlChar :: b) = splitNl a ++ splitNl b := by
  induction a with
  | nil =>
    simp only [List.nil_append, splitNl]
    cases h : splitNl b with
    | nil => exact absurd h (splitNl_ne_nil b)
    | cons x t => simp
  | cons c rest ih =>
    simp only [List.cons_append, splitNl, ih]
    cases hr : splitNl rest with
    | nil => exact absurd hr (splitNl_ne_nil rest)
    | cons x t => by_cases hc : c = nlChar <;> simp [hc, ih, hr]

theorem splitNl_of_no_nl (l : List Char) (h : nlChar ∉ l) : splitNl l = [l] := by
  induction l with
  | nil => rfl
  | cons c rest ih =>
    simp only [splitNl]
    rw [ih (fun hm => h (List.mem_cons_of_mem c hm))]
    have hc : c ≠ nlChar := fun hc => h (hc ▸ List.mem_cons_self c rest)
    simp [hc]

theorem joinNl_splitNl (l : List Char) : joinNl (splitNl l) = l := by
  induction l with
  | nil => rfl
  | cons c rest ih =>
    simp only [splitNl]
    cases h : splitNl rest with
    | nil => exact absurd h (splitNl_ne_nil rest)
    | cons x t =>
      rw [h] at ih
      by_cases hc : c = nlChar
      · subst hc
        simp only [if_pos rfl]
        cases t with
        | nil => simpa [joinNl] using ih
        | cons y t2 => simpa [joinNl] using ih
      · simp only [if_neg hc]
        cases t with
        | nil => simpa [joinNl] using ih
        | cons y t2 => simpa [joinNl] using ih

theorem dropWhile_eq_self_of_head (p : Char → Bool) (l : List Char)
    (h : ∀ c, l.head? = some c → p c = false) : l.dropWhile p = l := by
  cases l with
  | nil => rfl
  | cons c rest => simp [List.dropWhile_cons, h c rfl]

theorem pyStripChars_eq_self (l : List Char)
    (hh : ∀ c, l.head? = some c → c.isWhitespace = false)
    (hl : ∀ c, l.getLast? = some c → c.isWhitespace = false) :
    pyStripChars l = l := by
  unfold pyStripChars
  rw [dropWhile_eq_self_of_head _ l hh]
  rw [dropWhile_eq_self_of_head _ l.reverse (fun c hc => hl c (by rwa [List.head?_reverse] at hc))]
  exact List.reverse_reverse l

theorem endsWith3Ticks_of_getLast_rbrace (l : List Char) (hl : l.getLast? = some rbrace) :
    endsWith3Ticks l = false := by
  unfold endsWith3Ticks
  cases hrev : l.reverse with
  | nil =>
    rw [← List.head?_reverse, hrev] at hl
    simp at hl
  | cons a tl =>
    rw [← List.head?_reverse, hrev] at hl
    simp only [List.head?_cons, Option.some.injEq] at hl
    subst hl
    simp [beginsWith, rbrace, tickChar]

theorem beginsWith3Ticks_of_head_lbrace (l : List Char) (hh : l.head? = some lbrace) :
    beginsWith3Ticks l = false := by
  unfold beginsWith3Ticks
  cases l with
  | nil => simp at hh
  | cons c tl =>
    simp only [List.head?_cons, Option.some.injEq] at hh
    subst hh
    simp [beginsWith, lbrace, tickChar]

theorem mutateResponse_self (l : List Char)
    (hh : l.head? = some lbrace) (hl : l.getLast? = some rbrace) :
    mutateResponse l = l := by
  have hstrip : pyStripChars l = l := by
    refine pyStripChars_eq_self l (fun c hc => ?_) (fun c hc => ?_)
    · rw [hh] at hc; cases hc; decide
    · rw [hl] at hc; cases hc; decide
  simp only [mutateResponse, hstrip, beginsWith3Ticks_of_head_lbrace l hh,
    endsWith3Ticks_of_getLast_rbrace l hl, Bool.false_eq_true, if_false]

theorem mutateResponse_wrap (J : List Char)
    (hl : J.getLast? = some rbrace) :
    mutateResponse (("```json\n" : String).data ++ J ++ ("\n```" : String).data) = J := by
  have e1 : ("```json\n" : String).data
      = [tickChar, tickChar, tickChar, 'j', 's', 'o', 'n'] ++ [nlChar] := by decide
  have e2 : ("\n```" : String).data = nlChar :: [tickChar, tickChar, tickChar] := by decide
  have hw : ("```json\n" : String).data ++ J ++ ("\n```" : String).data
      = [tickChar, tickChar, tickChar, 'j', 's', 'o', 'n']
        ++ nlChar :: (J ++ nlChar :: [tickChar, tickChar, tickChar]) := by
    rw [e1, e2]; simp
  rw [hw]
  have hsplit :
      splitNl ([tickChar, tickChar, tickChar, 'j', 's', 'o', 'n']
        ++ nlChar :: (J ++ nlChar :: [tickChar, tickChar, tickChar]))
      = [[tickChar, tickChar, tickChar, 'j', 's', 'o', 'n']]
        ++ (splitNl J ++ [[tickChar, tickChar, tickChar]]) := by
    rw [splitNl_append_nl, splitNl_append_nl]
    rw [splitNl_of_no_nl [tickChar, tickChar, tickChar, 'j', 's', 'o', 'n'] (by decide)]
    rw [splitNl_of_no_nl [tickChar, tickChar, tickChar] (by decide)]
  have hstrip : pyStripChars ([tickChar, tickChar, tickChar, 'j', 's', 'o', 'n']
      ++ nlChar :: (J ++ nlChar :: [tickChar, tickChar, tickChar]))
      = [tickChar, tickChar, tickChar, 'j', 's', 'o', 'n']
        ++ nlChar :: (J ++ nlChar :: [tickChar, tickChar, tickChar]) := by
    refine pyStripChars_eq_self _ (fun c hc => ?_) (fun c hc => ?_)
    · simp only [List.cons_append, List.head?_cons, Option.some.injEq] at hc
      subst hc; decide
    · rw [List.getLast?_append_of_ne_nil _ (by simp)] at hc
      have h2 : (nlChar :: (J ++ nlChar :: [tickChar, tickChar, tickChar])).getLast?
          = ([nlChar] ++ (J ++ nlChar :: [tickChar, tickChar, tickChar])).getLast? := rfl
      rw [h2, List.getLast?_append_of_ne_nil _ (by simp),
        List.getLast?_append_of_ne_nil _ (by simp)] at hc
      simp only [List.getLast?_cons_cons, List.getLast?_singleton, Option.some.injEq] at hc
      subst hc; decide
  have hticks : beginsWith3Ticks ([tickChar, tickChar, tickChar, 'j', 's', 'o', 'n']
      ++ nlChar :: (J ++ nlChar :: [tickChar, tickChar, tickChar])) = true := by
    simp [beginsWith3Ticks, beginsWith]
  have hslice : ((([[tickChar, tickChar, tickChar, 'j', 's', 'o', 'n']]
      ++ (splitNl J ++ [[tickChar, tickChar, tickChar]])).drop 1).dropLast) = splitNl J := by
    simp
  simp only [mutateResponse, hstrip, hticks, if_true, hsplit, hslice, joinNl_splitNl,
    endsWith3Ticks_of_getLast_rbrace J hl, Bool.false_eq_true, if_false]

theorem pivotStep_pivot_attempts (st : AgentState) (now : String) :
    (pivotStep st now).pivot_attempts = st.pivot_attempts + 1 := rfl

theorem pivotStep_pivot_history (st : AgentState) (now : String) :
    ∃ r : PivotRecord, (pivotStep st now).pivot_history = st.pivot_history ++ [r]
      ∧ r.attempt_num = st.pivot_attempts + 1 :=
  ⟨_, rfl, rfl⟩

/-!  Claim theorems. -/

/-- C1: when the state carries a devils-advocate feedback score s, the
router should_pivot_or_proceed returns "write_success" for
s > pivot_threshold, "pivot" for s <= pivot_threshold with
pivot_attempts < max_pivot_attempts, "write_failure" for
s <= pivot_threshold with attempts exhausted, and "write_failure"
whenever status is "failed". -/
theorem C1_router_cases (settings : Settings) (state : AgentState) (fb : FeedbackDict) (s : Int)
    (hfb : state.devils_advocate_feedback = some fb) (hs : fb.score = some s) :
    (state.status = "failed" → should_pivot_or_proceed settings state = "write_failure")
    ∧ (state.status ≠ "failed" → settings.pivot_threshold < s →
        should_pivot_or_proceed settings state = "write_success")
    ∧ (state.status ≠ "failed" → s ≤ settings.pivot_threshold →
        state.pivot_attempts < settings.max_pivot_attempts →
        should_pivot_or_proceed settings state = "pivot")
    ∧ (state.status ≠ "failed" → s ≤ settings.pivot_threshold →
        settings.max_pivot_attempts ≤ state.pivot_attempts →
        should_pivot_or_proceed settings state = "write_failure") := by
  have hsc : stateScore state = s := by simp [stateScore, hfb, hs]
  refine ⟨fun h1 => by simp [should_pivot_or_proceed, h1], ?_, ?_, ?_⟩
  · intro h1 h2
    simp [should_pivot_or_proceed, h1, hsc, h2]
  · intro h1 h2 h3
    simp [should_pivot_or_proceed, h1, hsc, not_lt.mpr h2, h3]
  · intro h1 h2 h3
    simp [should_pivot_or_proceed, h1, hsc, not_lt.mpr h2, not_lt.mpr h3]

/-- Witness for C1: with the default settings, a score of 7 on a fresh
non-failed state routes to "write_success". -/
theorem C1_router_cases_witness :
    (({ create_initial_state "job" "sess" "an idea" "t0" with
          devils_advocate_feedback := some { score := some 7 } } : AgentState).status ≠ "failed"
      ∧ defaultSettings.pivot_threshold < (7 : Int))
    ∧ should_pivot_or_proceed defaultSettings
        { create_initial_state "job" "sess" "an idea" "t0" with
          devils_advocate_feedback := some { score := some 7 } } = "write_success" :=
  ⟨⟨by decide, by decide⟩,
    (C1_router_cases defaultSettings
      { create_initial_state "job" "sess" "an idea" "t0" with
        devils_advocate_feedback := some { score := some 7 } }
      { score := some 7 } 7 rfl rfl).2.1 (by decide) (by decide)⟩

/-- C2 counterexample: on a fresh state (status "started", no
devils_advocate_feedback, pivot_attempts 0) the router returns "pivot",
not "write_failure" — a missing evaluation result does not always route
to the failure report. -/
theorem C2_counterexample :
    (create_initial_state "job" "sess" "an idea" "t0").status ≠ "failed"
    ∧ (create_initial_state "job" "sess" "an idea" "t0").devils_advocate_feedback = Option.none
    ∧ (create_initial_state "job" "sess" "an idea" "t0").pivot_attempts = 0
    ∧ should_pivot_or_proceed defaultSettings (create_initial_state "job" "sess" "an idea" "t0")
        = "pivot" := by decide

/-- C2 amended: with a non-negative threshold, a missing or score-less
evaluation result defaults to score 0 and never routes to
"write_success"; it routes to "pivot" while attempts remain and to
"write_failure" once they are exhausted. -/
theorem C2_missing_score_routing (settings : Settings) (state : AgentState)
    (hst : state.status ≠ "failed") (hthr : 0 ≤ settings.pivot_threshold)
    (hmiss : state.devils_advocate_feedback = Option.none
      ∨ ∃ fb, state.devils_advocate_feedback = some fb ∧ fb.score = Option.none) :
    should_pivot_or_proceed settings state
      = (if state.pivot_attempts < settings.max_pivot_attempts then "pivot" else "write_failure")
    ∧ should_pivot_or_proceed settings state ≠ "write_success" := by
  have hsc : stateScore state = 0 := by
    rcases hmiss with h | ⟨fb, hfb, hs⟩
    · simp [stateScore, h]
    · simp [stateScore, hfb, hs]
  have hngt : ¬ (stateScore state > settings.pivot_threshold) := by rw [hsc]; omega
  have h1 : should_pivot_or_proceed settings state
      = (if state.pivot_attempts < settings.max_pivot_attempts then "pivot" else "write_failure") := by
    simp [should_pivot_or_proceed, hst, hngt]
  refine ⟨h1, ?_⟩
  rw [h1]; split <;> decide

/-- Witness for the amended C2 at a fresh state with default settings. -/
theorem C2_missing_score_routing_witness :
    ((create_initial_state "job" "sess" "an idea" "t0").status ≠ "failed"
      ∧ (0 : Int) ≤ defaultSettings.pivot_threshold)
    ∧ (should_pivot_or_proceed defaultSettings (create_initial_state "job" "sess" "an idea" "t0")
        = (if (create_initial_state "job" "sess" "an idea" "t0").pivot_attempts
              < defaultSettings.max_pivot_attempts then "pivot" else "write_failure")
      ∧ should_pivot_or_proceed defaultSettings (create_initial_state "job" "sess" "an idea" "t0")
          ≠ "write_success") :=
  ⟨⟨by decide, by decide⟩,
    C2_missing_score_routing defaultSettings (create_initial_state "job" "sess" "an idea" "t0")
      (by decide) (by decide) (Or.inl rfl)⟩

/-- C3: starting from the initial state, after N applications of
apply_pivot merged through the pivot_history reducer, pivot_attempts and
the length of pivot_history both equal N, and the i-th history entry
(0-based index i < N) has attempt_num i+1. -/
theorem C3_pivot_iteration (job sess idea t0 : String) (ts : Nat → String) (N : Nat) :
    (pivotIter (create_initial_state job sess idea t0) ts N).pivot_attempts = N
    ∧ (pivotIter (create_initial_state job sess idea t0) ts N).pivot_history.length = N
    ∧ ∀ i, i < N →
        ((pivotIter (create_initial_state job sess idea t0) ts N).pivot_history.getD i
            ⟨0, "", "", "", 0, ""⟩).attempt_num = i + 1 := by
  induction N with
  | zero => exact ⟨rfl, rfl, fun i hi => absurd hi (Nat.not_lt_zero i)⟩
  | succ n ih =>
    obtain ⟨ha, hlen, hidx⟩ := ih
    obtain ⟨r, hr, hra⟩ :=
      pivotStep_pivot_history (pivotIter (create_initial_state job sess idea t0) ts n) (ts n)
    refine ⟨?_, ?_, ?_⟩
    · show (pivotStep _ (ts n)).pivot_attempts = n + 1
      rw [pivotStep_pivot_attempts, ha]
    · show (pivotStep _ (ts n)).pivot_history.length = n + 1
      rw [hr]; simp [hlen]
    · intro i hi
      show ((pivotStep _ (ts n)).pivot_history.getD i _).attempt_num = i + 1
      rw [hr]
      rcases Nat.lt_or_ge i n with h | h
      · rw [List.getD_append _ _ _ _ (by rw [hlen]; exact h)]
        exact hidx i h
      · have hin : i = n := Nat.le_antisymm (Nat.lt_succ_iff.mp hi) h
        subst hin
        rw [List.getD_append_right _ _ _ _ (le_of_eq hlen), hlen]
        simp [hra, ha]

theorem str_append_right_ne_empty (a b : String) (h : b.data ≠ []) : a ++ b ≠ "" := by
  intro hc
  have hd := congrArg String.data hc
  have h0 : ("" : String).data = [] := rfl
  rw [String.data_append, h0] at hd
  exact h (List.append_eq_nil.mp hd).2

/-- C4: apply_pivot, applied through the reducer, appends exactly one
history record, sets current_idea to the truthy suggested_pivot, else the
truthy pivot_rationale, else the generic refinement placeholder, clears
the market-research, competitor-analysis and evaluation slots, and leaves
the validation slot, original_idea, job_id and session_id unchanged. -/
theorem C4_apply_pivot_effects (state : AgentState) (now : String) :
    ((applyUpdate state (apply_pivot state now)).pivot_history.length
        = state.pivot_history.length + 1)
    ∧ (applyUpdate state (apply_pivot state now)).market_research = Option.none
    ∧ (applyUpdate state (apply_pivot state now)).competitor_analysis = Option.none
    ∧ (applyUpdate state (apply_pivot state now)).devils_advocate_feedback = Option.none
    ∧ (applyUpdate state (apply_pivot state now)).input_validation = state.input_validation
    ∧ (applyUpdate state (apply_pivot state now)).original_idea = state.original_idea
    ∧ (applyUpdate state (apply_pivot state now)).job_id = state.job_id
    ∧ (applyUpdate state (apply_pivot state now)).session_id = state.session_id
    ∧ (∀ fb p, state.devils_advocate_feedback = some fb → fb.suggested_pivot = some p →
        p ≠ "" → (applyUpdate state (apply_pivot state now)).current_idea = p)
    ∧ (∀ fb r, state.devils_advocate_feedback = some fb →
        truthyStr fb.suggested_pivot = Option.none → fb.pivot_rationale = some r → r ≠ "" →
        (applyUpdate state (apply_pivot state now)).current_idea = r)
    ∧ (truthyStr (state.devils_advocate_feedback.bind (·.suggested_pivot)) = Option.none →
        truthyStr (state.devils_advocate_feedback.bind (·.pivot_rationale)) = Option.none →
        (applyUpdate state (apply_pivot state now)).current_idea
          = "Refined version of: " ++ state.current_idea) := by
  refine ⟨?_, rfl, rfl, rfl, rfl, rfl, rfl, rfl, ?_, ?_, ?_⟩
  · simp [applyUpdate, apply_pivot, merge_pivot_history]
  · intro fb p hfb hp hne
    simp [applyUpdate, apply_pivot, hfb, hp, truthyStr, hne]
  · intro fb r hfb hsp hr hne
    simp only [applyUpdate, apply_pivot, hfb, Option.some_bind, hsp, hr, Option.getD_none,
      Option.getD_some]
    simp [truthyStr, hne]
  · intro h1 h2
    simp [applyUpdate, apply_pivot, h1, h2]

/-- Witness for C4: a concrete state whose feedback suggests a pivot. -/
theorem C4_apply_pivot_effects_witness :
    (({ create_initial_state "j" "s" "an idea" "t" with
          devils_advocate_feedback :=
            some { score := some 3, suggested_pivot := some "pivot to a niche" } }
        : AgentState).devils_advocate_feedback
        = some { score := some 3, suggested_pivot := some "pivot to a niche" }
      ∧ ("pivot to a niche" : String) ≠ "")
    ∧ (applyUpdate
        { create_initial_state "j" "s" "an idea" "t" with
          devils_advocate_feedback :=
            some { score := some 3, suggested_pivot := some "pivot to a niche" } }
        (apply_pivot
          { create_initial_state "j" "s" "an idea" "t" with
            devils_advocate_feedback :=
              some { score := some 3, suggested_pivot := some "pivot to a niche" } }
          "t1")).current_idea = "pivot to a niche" :=
  ⟨⟨rfl, by decide⟩,
    (C4_apply_pivot_effects
      { create_initial_state "j" "s" "an idea" "t" with
        devils_advocate_feedback :=
          some { score := some 3, suggested_pivot := some "pivot to a niche" } }
      "t1").2.2.2.2.2.2.2.2.1
      { score := some 3, suggested_pivot := some "pivot to a niche" }
      "pivot to a niche" rfl rfl (by decide)⟩

/-- C5: the writer branches purely on whether the evaluation score
(defaulting to 0 when absent) exceeds the configured threshold:
above it the report_type is "investment_memo", otherwise
"market_reality"; in both cases status becomes "completed" and the
final report is non-empty. -/
theorem C5_writer_contract (settings : Settings) (state : AgentState) (llmReport : String) :
    (settings.pivot_threshold < stateScore state →
        (writer settings state llmReport).report_type = some (some "investment_memo"))
    ∧ (stateScore state ≤ settings.pivot_threshold →
        (writer settings state llmReport).report_type = some (some "market_reality"))
    ∧ (writer settings state llmReport).status = some "completed"
    ∧ ∃ rep, (writer settings state llmReport).final_report = some (some rep) ∧ rep ≠ "" := by
  refine ⟨fun h => by simp [writer, write_investment_memo, h],
          fun h => by simp [writer, write_market_reality_report, not_lt.mpr h], ?_, ?_⟩
  · unfold writer; split <;> rfl
  · unfold writer; split
    · exact ⟨_, rfl, str_append_right_ne_empty _ "\n" (by decide)⟩
    · exact ⟨_, rfl, str_append_right_ne_empty _ "\n" (by decide)⟩

/-- Witness for C5: a score of 8 with default settings yields the
investment memo, completed status and a non-empty report. -/
theorem C5_writer_contract_witness :
    (defaultSettings.pivot_threshold
        < stateScore { create_initial_state "j" "s" "an idea" "t" with
            devils_advocate_feedback := some { score := some 8 } })
    ∧ ((writer defaultSettings
          { create_initial_state "j" "s" "an idea" "t" with
            devils_advocate_feedback := some { score := some 8 } }
          "Report body.").report_type = some (some "investment_memo")
      ∧ ∃ rep, (writer defaultSettings
          { create_initial_state "j" "s" "an idea" "t" with
            devils_advocate_feedback := some { score := some 8 } }
          "Report body.").final_report = some (some rep) ∧ rep ≠ "") :=
  ⟨by decide,
    (C5_writer_contract defaultSettings
      { create_initial_state "j" "s" "an idea" "t" with
        devils_advocate_feedback := some { score := some 8 } } "Report body.").1 (by decide),
    (C5_writer_contract defaultSettings
      { create_initial_state "j" "s" "an idea" "t" with
        devils_advocate_feedback := some { score := some 8 } } "Report body.").2.2.2⟩

/-- C6: the score validator always lands in [1,10]; 11 clamps to 10,
0 clamps to 1, the string "8" parses to 8, a missing score gives 5, and a
non-numeric string gives 5. -/
theorem C6_clamp_score (v : PyVal) :
    (1 ≤ clamp_score v ∧ clamp_score v ≤ 10)
    ∧ clamp_score (.int 11) = 10
    ∧ clamp_score (.int 0) = 1
    ∧ clamp_score (.str "8") = 8
    ∧ clamp_score .none = 5
    ∧ (∀ s, pyIntOfString s = Option.none → clamp_score (.str s) = 5) := by
  have hrange : ∀ n : Int, 1 ≤ max 1 (min 10 n) ∧ max 1 (min 10 n) ≤ 10 :=
    fun n => ⟨le_max_left 1 _, max_le (by norm_num) (min_le_left 10 n)⟩
  refine ⟨?_, by decide, by decide, by decide, rfl, fun s h => by simp [clamp_score, h]⟩
  cases v with
  | int n => exact hrange n
  | str s =>
    cases h : pyIntOfString s with
    | none => simp [clamp_score, h]
    | some n => simp only [clamp_score, h]; exact hrange n
  | none => simp [clamp_score]

/-- Witness for C6 at a non-numeric string. -/
theorem C6_clamp_score_witness :
    pyIntOfString "not a number" = Option.none
    ∧ clamp_score (.str "not a number") = 5 :=
  ⟨by decide,
    (C6_clamp_score (.str "not a number")).2.2.2.2.2 "not a number" (by decide)⟩

/-- C7 counterexample: the idea "asdfasdf" contains the vowel a, so the
cheap gibberish heuristic returns false and the validator escalates to
the reasoning service instead of rejecting without a call. -/
theorem C7_counterexample :
    is_obvious_gibberish "asdfasdf" = false
    ∧ input_validator_precheck "asdfasdf" = Option.none := by decide

/-- C7 amended: the heuristic does not fire on "asdfasdf" (it has the
vowel a) and that input escalates to the reasoning service, whereas a
vowel-free input longer than five characters such as "sdfgsdfg" is
rejected by the no-vowel heuristic without any reasoning-service call,
with status "invalid_input". -/
theorem C7_gibberish_paths :
    (is_obvious_gibberish "asdfasdf" = false
      ∧ input_validator_precheck "asdfasdf" = Option.none)
    ∧ (is_obvious_gibberish "sdfgsdfg" = true
      ∧ (input_validator_precheck "sdfgsdfg").map (fun u => u.status)
          = some (some "invalid_input")) := by decide

/-- Witness for C3 at N = 2. -/
theorem C3_pivot_iteration_witness :
    ((1 : Nat) < 2)
    ∧ (pivotIter (create_initial_state "j" "s" "i" "t") (fun _ => "t1") 2).pivot_attempts = 2
    ∧ (pivotIter (create_initial_state "j" "s" "i" "t") (fun _ => "t1") 2).pivot_history.length = 2
    ∧ ((pivotIter (create_initial_state "j" "s" "i" "t") (fun _ => "t1") 2).pivot_history.getD 1
        ⟨0, "", "", "", 0, ""⟩).attempt_num = 1 + 1 :=
  ⟨by decide,
   (C3_pivot_iteration "j" "s" "i" "t" (fun _ => "t1") 2).1,
   (C3_pivot_iteration "j" "s" "i" "t" (fun _ => "t1") 2).2.1,
   (C3_pivot_iteration "j" "s" "i" "t" (fun _ => "t1") 2).2.2 1 (by decide)⟩

/-- C8: a syntactically valid JSON object payload wrapped in a markdown
code fence parses to the same DebateResult as the bare payload; and on any
response where the JSON attempt fails, the fallback verdict is "reject"
when the scanned text contains "reject", "invest" when it contains
"invest" but not "conditional", and "conditional_invest" otherwise. -/
theorem C8_parse_fences_and_fallback :
    (∀ (J idea : String) (tr : List DebateMessage),
        J.data.head? = some lbrace → J.data.getLast? = some rbrace →
        parse_synthesizer_response (wrapFences J) idea tr
          = parse_synthesizer_response J idea tr)
    ∧ (∀ (resp idea : String) (tr : List DebateMessage),
        jsonAttempt (mutateResponse resp.data) idea tr = Option.none →
        (parse_synthesizer_response resp idea tr).verdict
          = (if containsSub ((mutateResponse resp.data).map Char.toLower) ("reject").data
                then "reject"
             else if containsSub ((mutateResponse resp.data).map Char.toLower) ("invest").data
                 && !(containsSub ((mutateResponse resp.data).map Char.toLower) ("conditional").data)
                then "invest"
             else "conditional_invest")) := by
  constructor
  · intro J idea tr hh hl
    have hwrap : (wrapFences J).data
        = ("```json\n" : String).data ++ J.data ++ ("\n```" : String).data := by
      simp [wrapFences, String.data_append]
    unfold parse_synthesizer_response
    rw [hwrap, mutateResponse_wrap J.data hl, mutateResponse_self J.data hh hl]
  · intro resp idea tr hfail
    simp only [parse_synthesizer_response, hfail, fallbackDebateResult]
    by_cases h1 : containsSub ((mutateResponse resp.data).map Char.toLower) ("reject").data = true
    · simp only [h1, if_true]
      decide
    · simp only [h1, Bool.false_eq_true, if_false]
      by_cases h2 : (containsSub ((mutateResponse resp.data).map Char.toLower) ("invest").data
          && !(containsSub ((mutateResponse resp.data).map Char.toLower) ("conditional").data)) = true
      · simp only [h2, if_true]
        decide
      · simp only [h2, Bool.false_eq_true, if_false]
        decide

/-- Witness for C8: a concrete fenced payload and a concrete unparseable
rejection text. -/
theorem C8_parse_fences_and_fallback_witness :
    (("\x7b\"score\": 7, \"verdict\": \"invest\"\x7d" : String).data.head? = some lbrace
      ∧ ("\x7b\"score\": 7, \"verdict\": \"invest\"\x7d" : String).data.getLast? = some rbrace
      ∧ parse_synthesizer_response (wrapFences "\x7b\"score\": 7, \"verdict\": \"invest\"\x7d")
            "an idea" []
          = parse_synthesizer_response "\x7b\"score\": 7, \"verdict\": \"invest\"\x7d" "an idea" [])
    ∧ (jsonAttempt (mutateResponse ("I reject this" : String).data) "an idea" [] = Option.none
      ∧ (parse_synthesizer_response "I reject this" "an idea" []).verdict
          = (if containsSub ((mutateResponse ("I reject this" : String).data).map Char.toLower)
                  ("reject").data
                then "reject"
             else if containsSub ((mutateResponse ("I reject this" : String).data).map Char.toLower)
                  ("invest").data
                 && !(containsSub ((mutateResponse ("I reject this" : String).data).map Char.toLower)
                  ("conditional").data)
                then "invest"
             else "conditional_invest")) :=
  ⟨⟨by decide, by decide,
     C8_parse_fences_and_fallback.1 "\x7b\"score\": 7, \"verdict\": \"invest\"\x7d" "an idea" []
       (by decide) (by decide)⟩,
   ⟨by decide,
     C8_parse_fences_and_fallback.2 "I reject this" "an idea" [] (by decide)⟩⟩

/-- C9: the wrapped node never raises — every stage outcome yields a
normal update; a stage exception becomes status "failed" with an error
string carrying the node name and the exception text; and the persistence
outcome (success or failure, on either path) never changes the returned
update. -/
theorem C9_wrapper_isolation (node_name msg now : String) (outcome : StageOutcome)
    (result : StateUpdate) (p q : Bool) :
    (wrapped_node node_name (.exn msg) p now).status = some "failed"
    ∧ (wrapped_node node_name (.exn msg) p now).error
        = some (some ("Node \x27" ++ node_name ++ "\x27 failed: " ++ msg))
    ∧ wrapped_node node_name outcome p now = wrapped_node node_name outcome q now
    ∧ wrapped_node node_name (.ok result) p now = { result with updated_at := some now } := by
  refine ⟨rfl, rfl, ?_, rfl⟩
  cases outcome <;> rfl

/-- C10: the debate-panel update preserves
pivot_attempts = len(pivot_history); in the pivoted case it rewrites
current_idea, increments pivot_attempts by one and appends one record
whose attempt_num is the new counter; otherwise it leaves idea, counter
and history unchanged; and in all cases the compatibility feedback dict
carries the same score and verdict as the debate result. -/
theorem C10_debate_panel_invariant (state : AgentState) (result : DebateResult) (now : String)
    (hinv : state.pivot_attempts = state.pivot_history.length) :
    ((applyUpdate state (debate_panel_updates state result now)).pivot_attempts
        = (applyUpdate state (debate_panel_updates state result now)).pivot_history.length)
    ∧ (result.idea_was_pivoted = true → result.final_idea ≠ "" →
        (applyUpdate state (debate_panel_updates state result now)).current_idea
            = result.final_idea
        ∧ (applyUpdate state (debate_panel_updates state result now)).pivot_attempts
            = state.pivot_attempts + 1
        ∧ (applyUpdate state (debate_panel_updates state result now)).pivot_history.length
            = state.pivot_history.length + 1
        ∧ ((applyUpdate state (debate_panel_updates state result now)).pivot_history.getLast?).map
              (fun r => r.attempt_num)
            = some ((applyUpdate state (debate_panel_updates state result now)).pivot_attempts))
    ∧ (¬ (result.idea_was_pivoted = true ∧ result.final_idea ≠ "") →
        (applyUpdate state (debate_panel_updates state result now)).current_idea
            = state.current_idea
        ∧ (applyUpdate state (debate_panel_updates state result now)).pivot_attempts
            = state.pivot_attempts
        ∧ (applyUpdate state (debate_panel_updates state result now)).pivot_history
            = state.pivot_history)
    ∧ (∃ fb, (applyUpdate state (debate_panel_updates state result now)).devils_advocate_feedback
          = some fb
        ∧ fb.score = some result.score ∧ fb.verdict = some result.verdict) := by
  by_cases hc : result.idea_was_pivoted = true ∧ result.final_idea ≠ ""
  · obtain ⟨hp, hf⟩ := hc
    have hlast :
        ((applyUpdate state (debate_panel_updates state result now)).pivot_history.getLast?).map
          (fun r => r.attempt_num)
        = some (state.pivot_attempts + 1) := by
      simp [applyUpdate, debate_panel_updates, hp, eq_false hf, merge_pivot_history,
        List.getLast?_append_of_ne_nil]
    refine ⟨?_, fun _ _ => ⟨?_, ?_, ?_, ?_⟩, fun hn => absurd ⟨hp, hf⟩ hn, ?_⟩
    · simp [applyUpdate, debate_panel_updates, hp, eq_false hf, merge_pivot_history, hinv]
    · simp [applyUpdate, debate_panel_updates, hp, eq_false hf]
    · simp [applyUpdate, debate_panel_updates, hp, eq_false hf]
    · simp [applyUpdate, debate_panel_updates, hp, eq_false hf, merge_pivot_history]
    · rw [hlast]
      have ha : (applyUpdate state (debate_panel_updates state result now)).pivot_attempts
          = state.pivot_attempts + 1 := by
        simp [applyUpdate, debate_panel_updates, hp, eq_false hf]
      rw [ha]
    · refine ⟨{ score := some result.score
                verdict := some result.verdict
                reason := some result.synthesis
                key_risks := result.key_risks
                key_opportunities := result.key_opportunities
                suggested_pivot := some result.final_idea
                pivot_rationale := some result.synthesis }, ?_, rfl, rfl⟩
      simp [applyUpdate, debate_panel_updates, hp, eq_false hf]
  · refine ⟨?_, fun hp hf => absurd ⟨hp, hf⟩ hc, fun _ => ⟨?_, ?_, ?_⟩, ?_⟩
    · simp [applyUpdate, debate_panel_updates, eq_false hc, merge_pivot_history, hinv]
    · simp [applyUpdate, debate_panel_updates, eq_false hc]
    · simp [applyUpdate, debate_panel_updates, eq_false hc]
    · simp [applyUpdate, debate_panel_updates, eq_false hc, merge_pivot_history]
    · refine ⟨{ score := some result.score
                verdict := some result.verdict
                reason := some result.synthesis
                key_risks := result.key_risks
                key_opportunities := result.key_opportunities
                suggested_pivot :=
                  if result.idea_was_pivoted then some result.final_idea else Option.none
                pivot_rationale :=
                  if result.idea_was_pivoted then some result.synthesis else Option.none },
        ?_, rfl, rfl⟩
      simp [applyUpdate, debate_panel_updates, eq_false hc]

/-- Witness for C10: a fresh state and a pivoted debate result. -/
theorem C10_debate_panel_invariant_witness :
    ((create_initial_state "j" "s" "an idea" "t").pivot_attempts
        = (create_initial_state "j" "s" "an idea" "t").pivot_history.length)
    ∧ ((applyUpdate (create_initial_state "j" "s" "an idea" "t")
          (debate_panel_updates (create_initial_state "j" "s" "an idea" "t")
            { score := 4, verdict := "conditional_invest", final_idea := "a better idea",
              idea_was_pivoted := true, synthesis := "synth" } "t1")).pivot_attempts
        = (applyUpdate (create_initial_state "j" "s" "an idea" "t")
            (debate_panel_updates (create_initial_state "j" "s" "an idea" "t")
              { score := 4, verdict := "conditional_invest", final_idea := "a better idea",
                idea_was_pivoted := true, synthesis := "synth" } "t1")).pivot_history.length)
    ∧ (applyUpdate (create_initial_state "j" "s" "an idea" "t")
          (debate_panel_updates (create_initial_state "j" "s" "an idea" "t")
            { score := 4, verdict := "conditional_invest", final_idea := "a better idea",
              idea_was_pivoted := true, synthesis := "synth" } "t1")).current_idea
        = "a better idea" :=
  ⟨rfl,
   (C10_debate_panel_invariant (create_initial_state "j" "s" "an idea" "t")
      { score := 4, verdict := "conditional_invest", final_idea := "a better idea",
        idea_was_pivoted := true, synthesis := "synth" } "t1" rfl).1,
   ((C10_debate_panel_invariant (create_initial_state "j" "s" "an idea" "t")
      { score := 4, verdict := "conditional_invest", final_idea := "a better idea",
        idea_was_pivoted := true, synthesis := "synth" } "t1" rfl).2.1 rfl (by decide)).1⟩
